import Mathlib

/-!
Shallow embedding of the GDrive upload scripts (`Upload.py`).

The repository is a thin OAuth2 + Drive client script.  We embed the two
functions the claims are about:

* `authorization` (Upload.py lines 10-29): loads a cached credential from
  `token.pickle`, refreshes it when expired with a refresh token, otherwise
  runs the interactive flow and persists the fresh credential.  The external
  world (cached store contents, outcome of `creds.refresh`, outcome of
  `flow.run_local_server`) is passed in as an `AuthEnv`; fallible calls are
  `Option`-valued inputs, and a raised exception is an `Except.error` result.

* `upload` (Upload.py lines 32-135): looks up the folder by name on the
  remote listing, reconciles the folder's non-owner permissions against the
  desired `(user_email, access)` share, and uploads the file.  Remote reads
  are taken from a `Drive` value; remote writes are recorded as a list of
  `DriveOp` operations (the script only ever calls `create` endpoints, so the
  operation language has no delete or update).
-/

/-- Credential attributes read by the script: `creds.valid`, `creds.expired`,
`creds.refresh_token` (truthiness of the refresh token). -/
structure Credential where
  valid : Bool
  expired : Bool
  refresh_token : Bool
deriving DecidableEq, Repr

/-- Observable side effects of `authorization`: a `creds.refresh(Request())`
call, a `flow.run_local_server` run, or a `pickle.dump` into `token.pickle`. -/
inductive AuthEvent where
  | refresh : AuthEvent
  | runFlow : AuthEvent
  | storeWrite : Credential → AuthEvent
deriving DecidableEq, Repr

/-- External world of `authorization`: the current `token.pickle` contents
(`none` when the file is absent), the result of a refresh attempt (`none`
means `creds.refresh` raises), and the result of the interactive flow
(`none` means the flow raises). -/
structure AuthEnv where
  store : Option Credential
  refreshResult : Option Credential
  flowResult : Option Credential
deriving DecidableEq, Repr

/-- Result of a successful `authorization` call: the credential the returned
service handle is bound to, the side effects that occurred in order, and the
final `token.pickle` contents. -/
structure AuthOutcome where
  handle : Credential
  events : List AuthEvent
  store : Option Credential
deriving DecidableEq, Repr

/-- Upload.py lines 10-29.  `creds = pickle.load(...)` when the store exists;
`if not creds or not creds.valid:` enters the repair block;
`if creds and creds.expired and creds.refresh_token:` refreshes (no dump!);
otherwise the interactive flow runs and the new credential is dumped to
`token.pickle`.  Finally `build(...)` binds the credential to a handle. -/
def authorization (env : AuthEnv) : Except String AuthOutcome :=
  match env.store with
  | some creds =>
    if creds.valid then
      Except.ok ⟨creds, [], env.store⟩
    else if creds.expired && creds.refresh_token then
      match env.refreshResult with
      | some refreshed => Except.ok ⟨refreshed, [AuthEvent.refresh], env.store⟩
      | none => Except.error "refresh failed"
    else
      match env.flowResult with
      | some c => Except.ok ⟨c, [AuthEvent.runFlow, AuthEvent.storeWrite c], some c⟩
      | none => Except.error "flow failed"
  | none =>
    match env.flowResult with
    | some c => Except.ok ⟨c, [AuthEvent.runFlow, AuthEvent.storeWrite c], some c⟩
    | none => Except.error "flow failed"

/-- A remote Drive entry as seen by `files().list` (fields `id, name`); the
query string filters on `mimeType`, so the entry also carries it. -/
structure RemoteFile where
  id : String
  name : String
  mimeType : String
deriving DecidableEq, Repr

/-- A permission record as returned by `permissions().list` with field
selection `permissions(emailAddress, role)`. -/
structure Perm where
  emailAddress : String
  role : String
deriving DecidableEq, Repr

/-- Read-only view of the remote Drive: the file listing as the server pages
it (`pages`), and the permission list of each file id. -/
structure Drive where
  pages : List (List RemoteFile)
  perms : String → List Perm

/-- The folder mime sentinel used throughout Upload.py. -/
def folderMime : String := "application/vnd.google-apps.folder"

/-- Remote write issued by the script.  Upload.py only ever calls the
`create` endpoints (`files().create`, `permissions().create`); there is no
delete or update call, so the operation language has no such constructor.
`createFolder` records the remote-assigned id of the new folder. -/
inductive DriveOp where
  | createFolder : String → String → DriveOp
  | createPerm : String → Option String → Option String → DriveOp
  | createFile : String → List String → String → DriveOp
deriving DecidableEq, Repr

/-- Python `==` between a `str` and a `str | None` value: comparing a string
against `None` is `False`. -/
def pyEqOpt (s : String) (o : Option String) : Bool :=
  match o with
  | none => false
  | some t => s == t

/-- Python truthiness of a `str | None` value (`None` and `""` are falsy). -/
def pyTruthy (o : Option String) : Bool :=
  match o with
  | none => false
  | some s => !(s == "")

/-- Python slice `s[-n:]`: the last `n` characters (the whole string when it
is shorter than `n`). -/
def pyTail (s : String) (n : Nat) : String :=
  String.mk (s.toList.drop (s.toList.length - n))

/-- Python slice `s[:-n]`: everything but the last `n` characters. -/
def pyDropTail (s : String) (n : Nat) : String :=
  String.mk (s.toList.take (s.toList.length - n))

/-- Upload.py lines 38-41: one `files().list` call with
`q="mimeType='application/vnd.google-apps.folder'"` and `pageToken=None`.
The server answers with the first page, filtered by the query; the script
never reads `nextPageToken`, so later pages are never requested. -/
def listFolderPage (d : Drive) : List RemoteFile :=
  (d.pages.headD []).filter (fun f => f.mimeType == folderMime)

/-- Upload.py lines 42-51: scan the response and `break` at the first entry
whose name equals `folder_name`. -/
def findFolder (d : Drive) (folder_name : String) : Option RemoteFile :=
  (listFolderPage d).find? (fun f => f.name == folder_name)

/-- The lookup the spec describes, stated in the spec's words: the complete
remote listing obtained by following continuation tokens until exhausted
(all pages joined), filtered to folder-type entries, first exact name match
wins.  Kept separate from `findFolder` (the code's behaviour) so the two can
be compared. -/
def findFolderSpec (d : Drive) (folder_name : String) : Option RemoteFile :=
  (d.pages.flatten.filter (fun f => f.mimeType == folderMime)).find?
    (fun f => f.name == folder_name)

/-- Upload.py lines 46-49: fetch the permissions of the found folder and drop
the entries whose role is `owner`. -/
def sharedUsers (d : Drive) (folder_identifier : String) : List Perm :=
  (d.perms folder_identifier).filter (fun i => !(i.role == "owner"))

/-- Upload.py lines 85-110, the `for user in shared_users:` loop.  State is
the current `folder_identifier` plus a counter indexing the fresh ids handed
out by the remote for newly created folders (`fresh`).  Per entry:
exact `(emailAddress, role)` match → `pass`; same email, different role →
create a sibling folder named `folder_name + " " + str(now)[:-7]`, grant the
share there and continue from its id; otherwise → grant the share on the
current folder.  The loop never breaks. -/
def sharedLoop (fresh : Nat → String) (now folder_name : String)
    (user_email access : Option String) :
    List Perm → String → Nat → (String × Nat) × List DriveOp
  | [], folder_identifier, cnt => ((folder_identifier, cnt), [])
  | user :: rest, folder_identifier, cnt =>
    if pyEqOpt user.emailAddress user_email && pyEqOpt user.role access then
      sharedLoop fresh now folder_name user_email access rest folder_identifier cnt
    else if pyEqOpt user.emailAddress user_email && !(pyEqOpt user.role access) then
      let nfid := fresh cnt
      let r := sharedLoop fresh now folder_name user_email access rest nfid (cnt + 1)
      (r.1, DriveOp.createFolder (folder_name ++ " " ++ pyDropTail now 7) nfid ::
        DriveOp.createPerm nfid user_email access :: r.2)
    else
      let r := sharedLoop fresh now folder_name user_email access rest folder_identifier cnt
      (r.1, DriveOp.createPerm folder_identifier user_email access :: r.2)

/-- Upload.py lines 34-110: the folder lookup / creation / permission
reconciliation phase of `upload`.  Returns the resolved folder id and the
remote writes issued, in order.  `fresh` enumerates the ids the remote
assigns to folders created by this call; `now` is `str(datetime.now())`. -/
def resolveFolder (fresh : Nat → String) (now : String) (d : Drive)
    (folder_name : String) (user_email access : Option String) :
    String × List DriveOp :=
  match findFolder d folder_name with
  | none =>
    let folder_identifier := fresh 0
    if pyTruthy user_email && pyTruthy access then
      (folder_identifier,
        [DriveOp.createFolder folder_name folder_identifier,
         DriveOp.createPerm folder_identifier user_email access])
    else
      (folder_identifier, [DriveOp.createFolder folder_name folder_identifier])
  | some f =>
    let shared_users := sharedUsers d f.id
    if shared_users.isEmpty then
      if pyTruthy user_email && pyTruthy access then
        (f.id, [DriveOp.createPerm f.id user_email access])
      else
        (f.id, [])
    else
      let r := sharedLoop fresh now folder_name user_email access shared_users f.id 0
      (r.1.1, r.2)

/-- Upload.py lines 118-125: mime type derived from the file-name slice
(`file_name[-4:]`, `file_name[-5:]`); the file's contents are never read. -/
def file_mime (file_name : String) : String :=
  if pyTail file_name 4 = ".wav" then "audio / wav"
  else if pyTail file_name 4 = ".mp3" then "audio / mpeg"
  else if pyTail file_name 5 = ".flac" then "audio / flac"
  else "image / jpeg"

/-- Upload.py lines 32-135: resolve the folder, then `files().create` the
file with the resolved id as its single parent and the derived mime type. -/
def upload (fresh : Nat → String) (now : String) (d : Drive)
    (folder_name file_name : String) (user_email access : Option String) :
    List DriveOp :=
  let r := resolveFolder fresh now d folder_name user_email access
  r.2 ++ [DriveOp.createFile file_name [r.1] (file_mime file_name)]

/-- A permission record as stored remotely after the call: the body fields
of a `permissions().create` request (either may be Python `None`). -/
abbrev PermRec := Option String × Option String

/-- Lift a fetched permission to a stored record. -/
def Perm.toRec (p : Perm) : PermRec := (some p.emailAddress, some p.role)

/-- Effect of one remote write on the per-file permission state.  A
`permissions().create` call appends a record to the target file's list;
folder and file creation do not touch permissions. -/
def applyOp (st : String → List PermRec) : DriveOp → String → List PermRec
  | DriveOp.createPerm fileId e r, i =>
    if i = fileId then st i ++ [(e, r)] else st i
  | DriveOp.createFolder _ _, i => st i
  | DriveOp.createFile _ _ _, i => st i

/-- Effect of a whole operation list, applied in order. -/
def applyOps : List DriveOp → (String → List PermRec) → String → List PermRec
  | [], st => st
  | op :: ops, st => applyOps ops (applyOp st op)

/-- The permission state before the call: each file's fetched permissions. -/
def basePerms (d : Drive) : String → List PermRec :=
  fun i => (d.perms i).map Perm.toRec

/-- Recogniser for folder-creation writes. -/
def isCreateFolderOp : DriveOp → Bool
  | DriveOp.createFolder _ _ => true
  | _ => false

/-- Recogniser for permission-creation writes. -/
def isCreatePermOp : DriveOp → Bool
  | DriveOp.createPerm _ _ _ => true
  | _ => false

/-- `name ends in suf` in the claim's sense: `suf` is a suffix of the
character sequence of `name`. -/
def endsIn (s suf : String) : Prop := suf.toList <:+ s.toList

/-- Concrete credential: present and valid. -/
def credValid : Credential := ⟨true, false, true⟩

/-- Concrete credential: expired, with a refresh token. -/
def credExpired : Credential := ⟨false, true, true⟩

/-- Concrete credential: the result of a successful refresh. -/
def credRefreshed : Credential := ⟨true, false, true⟩

/-- Concrete credential: the result of a successful interactive flow. -/
def credFlowNew : Credential := ⟨true, false, false⟩

/-- Environment with a valid cached credential. -/
def envValidStore : AuthEnv := ⟨some credValid, none, none⟩

/-- Environment with an expired cached credential and a refresh that
succeeds. -/
def envRefreshOk : AuthEnv := ⟨some credExpired, some credRefreshed, none⟩

/-- Environment with an expired cached credential, a refresh that raises,
and an interactive flow that would succeed if it were run. -/
def envRefreshFail : AuthEnv := ⟨some credExpired, none, some credFlowNew⟩

/-- Concrete folder entry named "X". -/
def folderX : RemoteFile := ⟨"fid0", "X", folderMime⟩

/-- Concrete owner permission (filtered out of reconciliation). -/
def permOwner : Perm := ⟨"owner@x.com", "owner"⟩

/-- Concrete non-owner permission: a@x.com is a reader. -/
def permAReader : Perm := ⟨"a@x.com", "reader"⟩

/-- Concrete non-owner permission: b@x.com is a reader. -/
def permBReader : Perm := ⟨"b@x.com", "reader"⟩

/-- Remote whose first listing page is empty while the second page holds the
folder named "X". -/
def drivePage2 : Drive := ⟨[[], [⟨"id1", "X", folderMime⟩]], fun _ => []⟩

/-- Remote whose complete listing fits in a single page. -/
def drivePage1 : Drive := ⟨[[folderX]], fun _ => []⟩

/-- Remote with folder "X" shared with a@x.com as reader. -/
def driveShared : Drive :=
  ⟨[[folderX]], fun i => if i = "fid0" then [permOwner, permAReader] else []⟩

/-- Remote with folder "X" shared with b@x.com as reader. -/
def driveSharedB : Drive :=
  ⟨[[folderX]], fun i => if i = "fid0" then [permOwner, permBReader] else []⟩

/-- Remote with no files at all. -/
def driveEmpty : Drive := ⟨[], fun _ => []⟩

/-- Concrete fresh-id supply for witnesses. -/
def freshEx : Nat → String := fun n => "new" ++ Nat.repr n

/-- C10: for a cached credential that loads successfully and is valid, the
call returns a handle bound to it, performs no side effect at all (in
particular no write to the token store), and the final store contents equal
the initial contents. -/
theorem authorization_valid_no_store_write (env : AuthEnv) (c : Credential)
    (hstore : env.store = some c) (hvalid : c.valid = true) :
    authorization env = Except.ok ⟨c, [], env.store⟩ := by
  simp [authorization, hstore, hvalid]

/-- Witness for C10 at a concrete environment with a valid cached
credential. -/
theorem authorization_valid_no_store_write_witness :
    (envValidStore.store = some credValid ∧ credValid.valid = true) ∧
    authorization envValidStore = Except.ok ⟨credValid, [], envValidStore.store⟩ :=
  ⟨⟨rfl, rfl⟩, authorization_valid_no_store_write envValidStore credValid rfl rfl⟩

/-- C3 (amended): for a cached credential that is present, expired and has a
refresh token, a successful refresh happens exactly once (`events =
[refresh]`), the interactive flow never runs, but the refreshed credential
is NOT persisted: the token store is left exactly as it was. -/
theorem authorization_refresh_once_no_flow (env : AuthEnv) (c c' : Credential)
    (hstore : env.store = some c) (hvalid : c.valid = false)
    (hexp : c.expired = true) (hrt : c.refresh_token = true)
    (href : env.refreshResult = some c') :
    authorization env = Except.ok ⟨c', [AuthEvent.refresh], env.store⟩ := by
  simp [authorization, hstore, hvalid, hexp, hrt, href]

/-- C3 counterexample: at a concrete expired credential with a refresh token,
the refreshed credential differs from the stored one, yet the final token
store still holds the stale credential — the claim's "persists the updated
credential to the token store" is false (there is no store write at all). -/
theorem authorization_refresh_not_persisted :
    authorization envRefreshOk =
      Except.ok ⟨credRefreshed, [AuthEvent.refresh], some credExpired⟩ ∧
    some credExpired ≠ some credRefreshed :=
  ⟨rfl, by decide⟩

/-- Witness for the amended C3 at a concrete environment. -/
theorem authorization_refresh_once_no_flow_witness :
    (envRefreshOk.store = some credExpired ∧ credExpired.valid = false ∧
      credExpired.expired = true ∧ credExpired.refresh_token = true ∧
      envRefreshOk.refreshResult = some credRefreshed) ∧
    authorization envRefreshOk =
      Except.ok ⟨credRefreshed, [AuthEvent.refresh], envRefreshOk.store⟩ :=
  ⟨⟨rfl, rfl, rfl, rfl, rfl⟩,
    authorization_refresh_once_no_flow envRefreshOk credExpired credRefreshed
      rfl rfl rfl rfl rfl⟩

/-- C4 (amended): when the cached credential is expired with a refresh token
and the refresh raises, `authorization` does NOT fall back to the
interactive flow: the exception propagates to the caller (the call fails),
and no flow run and no store write happen. -/
theorem authorization_refresh_failure_propagates (env : AuthEnv) (c : Credential)
    (hstore : env.store = some c) (hvalid : c.valid = false)
    (hexp : c.expired = true) (hrt : c.refresh_token = true)
    (href : env.refreshResult = none) :
    authorization env = Except.error "refresh failed" := by
  simp [authorization, hstore, hvalid, hexp, hrt, href]

/-- C4 counterexample: concrete environment where the refresh raises while
the interactive flow would succeed; the call nevertheless errors out instead
of returning a handle bound to a freshly obtained credential. -/
theorem authorization_refresh_failure_crashes :
    envRefreshFail.flowResult = some credFlowNew ∧
    authorization envRefreshFail = Except.error "refresh failed" :=
  ⟨rfl, rfl⟩

/-- Witness for the amended C4 at a concrete environment. -/
theorem authorization_refresh_failure_propagates_witness :
    (envRefreshFail.store = some credExpired ∧ credExpired.valid = false ∧
      credExpired.expired = true ∧ credExpired.refresh_token = true ∧
      envRefreshFail.refreshResult = none) ∧
    authorization envRefreshFail = Except.error "refresh failed" :=
  ⟨⟨rfl, rfl, rfl, rfl, rfl⟩,
    authorization_refresh_failure_propagates envRefreshFail credExpired
      rfl rfl rfl rfl rfl⟩

/-- C1 counterexample: on a remote whose first listing page is empty while
the second page holds the folder named "X", the code's lookup (one
`files().list` call, `nextPageToken` never followed) finds nothing, while
the lookup over the complete listing demanded by the claim finds the
folder. -/
theorem findFolder_misses_second_page :
    findFolder drivePage2 "X" = none ∧
    findFolderSpec drivePage2 "X" = some ⟨"id1", "X", folderMime⟩ :=
  ⟨rfl, rfl⟩

/-- C1 (amended): the lookup phase resolves over the FIRST page of the
listing only; whenever the complete remote listing fits in a single page it
coincides with the spec's lookup (first folder-type entry whose name exactly
equals the requested name, first match wins). -/
theorem findFolder_spec_on_single_page (d : Drive) (folder_name : String)
    (h : d.pages.length ≤ 1) :
    findFolder d folder_name = findFolderSpec d folder_name := by
  obtain ⟨pages, perms⟩ := d
  cases pages with
  | nil => rfl
  | cons p rest =>
    cases rest with
    | nil => simp [findFolder, findFolderSpec, listFolderPage]
    | cons q rest2 => simp [List.length] at h

/-- Witness for the amended C1: a single-page remote on which the code's
lookup and the spec's lookup agree. -/
theorem findFolder_spec_on_single_page_witness :
    drivePage1.pages.length ≤ 1 ∧
    findFolder drivePage1 "X" = findFolderSpec drivePage1 "X" :=
  ⟨by decide, findFolder_spec_on_single_page drivePage1 "X" (by decide)⟩

/-- The last `w.length` elements of `l` equal `w` exactly when `w` is a
suffix of `l` (also covers `l` shorter than `w`: both sides fail). -/
theorem drop_length_sub_eq_iff (l w : List Char) :
    l.drop (l.length - w.length) = w ↔ w <:+ l := by
  constructor
  · intro h
    rw [← h]
    exact List.drop_suffix _ _
  · rintro ⟨t, rfl⟩
    simp [List.length_append, Nat.add_sub_cancel, List.drop_left]

/-- Python's `s[-n:] == w` test, for `n` the length of `w`, is exactly the
suffix test the spec describes. -/
theorem pyTail_eq_iff (s w : String) (n : Nat) (hn : w.toList.length = n) :
    pyTail s n = w ↔ endsIn s w := by
  subst hn
  unfold pyTail endsIn
  constructor
  · intro h
    have h2 : s.toList.drop (s.toList.length - w.toList.length) = w.toList := by
      have := congrArg String.toList h
      simpa using this
    exact (drop_length_sub_eq_iff _ _).1 h2
  · intro h
    have h2 : s.toList.drop (s.toList.length - w.toList.length) = w.toList :=
      (drop_length_sub_eq_iff _ _).2 h
    rw [h2]
    cases w with
    | mk d => rfl

/-- C8: the derived mime type is an audio type exactly on the three audio
suffixes `.wav`, `.mp3`, `.flac`, and the image default in every other
case.  `file_mime` consumes only the file name, never file contents. -/
theorem file_mime_suffix_table (name : String) :
    ((endsIn name ".wav" ∨ endsIn name ".mp3" ∨ endsIn name ".flac") →
      (file_mime name = "audio / wav" ∨ file_mime name = "audio / mpeg" ∨
        file_mime name = "audio / flac")) ∧
    (¬(endsIn name ".wav" ∨ endsIn name ".mp3" ∨ endsIn name ".flac") →
      file_mime name = "image / jpeg") := by
  have hwav := pyTail_eq_iff name ".wav" 4 (by decide)
  have hmp3 := pyTail_eq_iff name ".mp3" 4 (by decide)
  have hflac := pyTail_eq_iff name ".flac" 5 (by decide)
  have hflac4 := pyTail_eq_iff name "flac" 4 (by decide)
  constructor
  · rintro (h | h | h)
    · left
      unfold file_mime
      rw [if_pos (hwav.2 h)]
    · right; left
      have e3 : pyTail name 4 = ".mp3" := hmp3.2 h
      unfold file_mime
      rw [if_neg (by rw [e3]; decide), if_pos e3]
    · right; right
      have e4 : pyTail name 4 = "flac" :=
        hflac4.2 (List.IsSuffix.trans ⟨['.'], by decide⟩ h)
      have e5 : pyTail name 5 = ".flac" := hflac.2 h
      unfold file_mime
      rw [if_neg (by rw [e4]; decide), if_neg (by rw [e4]; decide), if_pos e5]
  · intro h
    have h1 : ¬endsIn name ".wav" := fun hx => h (Or.inl hx)
    have h2 : ¬endsIn name ".mp3" := fun hx => h (Or.inr (Or.inl hx))
    have h3 : ¬endsIn name ".flac" := fun hx => h (Or.inr (Or.inr hx))
    unfold file_mime
    rw [if_neg (fun he => h1 (hwav.1 he)), if_neg (fun he => h2 (hmp3.1 he)),
      if_neg (fun he => h3 (hflac.1 he))]

/-- Witness for C8 at the spec's own example `"song.wav"`. -/
theorem file_mime_suffix_table_witness :
    (endsIn "song.wav" ".wav" ∨ endsIn "song.wav" ".mp3" ∨
      endsIn "song.wav" ".flac") ∧
    (file_mime "song.wav" = "audio / wav" ∨
      file_mime "song.wav" = "audio / mpeg" ∨
      file_mime "song.wav" = "audio / flac") :=
  ⟨Or.inl ⟨"song".toList, by decide⟩,
    (file_mime_suffix_table "song.wav").1 (Or.inl ⟨"song".toList, by decide⟩)⟩

/-- C7: when no remote folder with the requested name exists, `upload`
creates exactly one folder, named with the given name; when a share is
supplied (both `user_email` and `access` truthy) it creates exactly one
permission, on the new folder's id with exactly the desired body; otherwise
it creates no permission at all. -/
theorem upload_creates_single_folder_when_missing
    (fresh : Nat → String) (now : String) (d : Drive)
    (folder_name file_name : String) (user_email access : Option String)
    (hfind : findFolder d folder_name = none) :
    DriveOp.createFolder folder_name (fresh 0) ∈
      upload fresh now d folder_name file_name user_email access ∧
    (upload fresh now d folder_name file_name user_email access).countP
      isCreateFolderOp = 1 ∧
    ((pyTruthy user_email && pyTruthy access) = true →
      (upload fresh now d folder_name file_name user_email access).countP
        isCreatePermOp = 1 ∧
      DriveOp.createPerm (fresh 0) user_email access ∈
        upload fresh now d folder_name file_name user_email access) ∧
    ((pyTruthy user_email && pyTruthy access) = false →
      (upload fresh now d folder_name file_name user_email access).countP
        isCreatePermOp = 0) := by
  by_cases htr : (pyTruthy user_email && pyTruthy access) = true
  · simp [upload, resolveFolder, hfind, htr, isCreateFolderOp, isCreatePermOp,
      List.countP_cons, List.countP_nil]
  · rw [Bool.not_eq_true] at htr
    simp [upload, resolveFolder, hfind, htr, isCreateFolderOp, isCreatePermOp,
      List.countP_cons, List.countP_nil]

/-- Witness for C7 on an empty remote with a supplied share. -/
theorem upload_creates_single_folder_when_missing_witness :
    findFolder driveEmpty "X" = none ∧
    (DriveOp.createFolder "X" (freshEx 0) ∈
      upload freshEx "t" driveEmpty "X" "song.wav" (some "a@x.com") (some "reader") ∧
    (upload freshEx "t" driveEmpty "X" "song.wav" (some "a@x.com") (some "reader")).countP
      isCreateFolderOp = 1 ∧
    ((pyTruthy (some "a@x.com") && pyTruthy (some "reader")) = true →
      (upload freshEx "t" driveEmpty "X" "song.wav" (some "a@x.com") (some "reader")).countP
        isCreatePermOp = 1 ∧
      DriveOp.createPerm (freshEx 0) (some "a@x.com") (some "reader") ∈
        upload freshEx "t" driveEmpty "X" "song.wav" (some "a@x.com") (some "reader")) ∧
    ((pyTruthy (some "a@x.com") && pyTruthy (some "reader")) = false →
      (upload freshEx "t" driveEmpty "X" "song.wav" (some "a@x.com") (some "reader")).countP
        isCreatePermOp = 0)) :=
  ⟨rfl, upload_creates_single_folder_when_missing freshEx "t" driveEmpty "X"
    "song.wav" (some "a@x.com") (some "reader") rfl⟩

/-- Unfolding: the loop emits nothing on an empty permission list. -/
theorem sharedLoop_nil {fresh : Nat → String} {now folder_name : String}
    {ue ac : Option String} {fid : String} {cnt : Nat} :
    sharedLoop fresh now folder_name ue ac [] fid cnt = ((fid, cnt), []) := rfl

/-- Unfolding: an entry matching the desired share exactly is `pass`ed. -/
theorem sharedLoop_cons_skip {fresh : Nat → String} {now folder_name : String}
    {ue ac : Option String} {u : Perm} {rest : List Perm} {fid : String}
    {cnt : Nat} (h1 : pyEqOpt u.emailAddress ue = true)
    (h2 : pyEqOpt u.role ac = true) :
    sharedLoop fresh now folder_name ue ac (u :: rest) fid cnt =
      sharedLoop fresh now folder_name ue ac rest fid cnt := by
  simp [sharedLoop, h1, h2]

/-- Unfolding: an entry with the desired email but another role forks a new
folder, grants the share there, and continues from the new folder's id. -/
theorem sharedLoop_cons_fork {fresh : Nat → String} {now folder_name : String}
    {ue ac : Option String} {u : Perm} {rest : List Perm} {fid : String}
    {cnt : Nat} (h1 : pyEqOpt u.emailAddress ue = true)
    (h2 : pyEqOpt u.role ac = false) :
    sharedLoop fresh now folder_name ue ac (u :: rest) fid cnt =
      ((sharedLoop fresh now folder_name ue ac rest (fresh cnt) (cnt + 1)).1,
        DriveOp.createFolder (folder_name ++ " " ++ pyDropTail now 7) (fresh cnt) ::
          DriveOp.createPerm (fresh cnt) ue ac ::
          (sharedLoop fresh now folder_name ue ac rest (fresh cnt) (cnt + 1)).2) := by
  simp [sharedLoop, h1, h2]

/-- Unfolding: an entry with a different email gets an additional permission
granted on the current folder. -/
theorem sharedLoop_cons_other {fresh : Nat → String} {now folder_name : String}
    {ue ac : Option String} {u : Perm} {rest : List Perm} {fid : String}
    {cnt : Nat} (h1 : pyEqOpt u.emailAddress ue = false) :
    sharedLoop fresh now folder_name ue ac (u :: rest) fid cnt =
      ((sharedLoop fresh now folder_name ue ac rest fid cnt).1,
        DriveOp.createPerm fid ue ac ::
          (sharedLoop fresh now folder_name ue ac rest fid cnt).2) := by
  simp [sharedLoop, h1]

/-- The loop processes a concatenation left to right, threading its state. -/
theorem sharedLoop_append {fresh : Nat → String} {now folder_name : String}
    {ue ac : Option String} (xs ys : List Perm) (fid : String) (cnt : Nat) :
    sharedLoop fresh now folder_name ue ac (xs ++ ys) fid cnt =
      ((sharedLoop fresh now folder_name ue ac ys
          (sharedLoop fresh now folder_name ue ac xs fid cnt).1.1
          (sharedLoop fresh now folder_name ue ac xs fid cnt).1.2).1,
        (sharedLoop fresh now folder_name ue ac xs fid cnt).2 ++
          (sharedLoop fresh now folder_name ue ac ys
            (sharedLoop fresh now folder_name ue ac xs fid cnt).1.1
            (sharedLoop fresh now folder_name ue ac xs fid cnt).1.2).2) := by
  induction xs generalizing fid cnt with
  | nil => rfl
  | cons u rest ih =>
    by_cases h1 : pyEqOpt u.emailAddress ue = true
    · by_cases h2 : pyEqOpt u.role ac = true
      · rw [List.cons_append, sharedLoop_cons_skip h1 h2,
          sharedLoop_cons_skip h1 h2, ih]
      · have h2' : pyEqOpt u.role ac = false := by rwa [Bool.not_eq_true] at h2
        rw [List.cons_append, sharedLoop_cons_fork h1 h2',
          sharedLoop_cons_fork h1 h2', ih]
        simp
    · have h1' : pyEqOpt u.emailAddress ue = false := by
        rwa [Bool.not_eq_true] at h1
      rw [List.cons_append, sharedLoop_cons_other h1',
        sharedLoop_cons_other h1', ih]
      simp

/-- When every entry has an email different from the desired one, the loop
keeps the folder id and grants the desired share once per entry, on the
existing folder. -/
theorem sharedLoop_all_other {fresh : Nat → String} {now folder_name : String}
    {ue ac : Option String} (lst : List Perm) (fid : String) (cnt : Nat) :
    (∀ u ∈ lst, pyEqOpt u.emailAddress ue = false) →
    sharedLoop fresh now folder_name ue ac lst fid cnt =
      ((fid, cnt), lst.map (fun _ => DriveOp.createPerm fid ue ac)) := by
  induction lst generalizing fid cnt with
  | nil => intro _; rfl
  | cons u rest ih =>
    intro h
    rw [sharedLoop_cons_other (h u (List.mem_cons_self u rest)),
      ih fid cnt (fun v hv => h v (List.mem_cons_of_mem u hv))]
    rfl

/-- The loop's final folder id is either the one it started from, or the id
of a folder it freshly created together with the desired permission on it. -/
theorem sharedLoop_fid_cases {fresh : Nat → String} {now folder_name : String}
    {ue ac : Option String} (lst : List Perm) (fid : String) (cnt : Nat) :
    (sharedLoop fresh now folder_name ue ac lst fid cnt).1.1 = fid ∨
    ∃ k, (sharedLoop fresh now folder_name ue ac lst fid cnt).1.1 = fresh k ∧
      DriveOp.createFolder (folder_name ++ " " ++ pyDropTail now 7) (fresh k) ∈
        (sharedLoop fresh now folder_name ue ac lst fid cnt).2 ∧
      DriveOp.createPerm (fresh k) ue ac ∈
        (sharedLoop fresh now folder_name ue ac lst fid cnt).2 := by
  induction lst generalizing fid cnt with
  | nil => left; rfl
  | cons u rest ih =>
    by_cases h1 : pyEqOpt u.emailAddress ue = true
    · by_cases h2 : pyEqOpt u.role ac = true
      · rw [sharedLoop_cons_skip h1 h2]
        exact ih fid cnt
      · have h2' : pyEqOpt u.role ac = false := by rwa [Bool.not_eq_true] at h2
        rw [sharedLoop_cons_fork h1 h2']
        rcases ih (fresh cnt) (cnt + 1) with hfid | ⟨k, hk, hcf, hcp⟩
        · right
          exact ⟨cnt, by simpa using hfid, by simp, by simp⟩
        · right
          exact ⟨k, by simpa using hk, by simp [hcf], by simp [hcp]⟩
    · have h1' : pyEqOpt u.emailAddress ue = false := by
        rwa [Bool.not_eq_true] at h1
      rw [sharedLoop_cons_other h1']
      rcases ih fid cnt with hfid | ⟨k, hk, hcf, hcp⟩
      · left
        simpa using hfid
      · right
        exact ⟨k, by simpa using hk, by simp [hcf], by simp [hcp]⟩

/-- As soon as some entry has the desired email with a different role, the
loop's final folder id is a freshly created fork folder, which carries the
timestamped name and the desired permission. -/
theorem sharedLoop_fork_reached {fresh : Nat → String} {now folder_name : String}
    {ue ac : Option String} (lst : List Perm) (fid : String) (cnt : Nat) :
    (∃ u ∈ lst, pyEqOpt u.emailAddress ue = true ∧ pyEqOpt u.role ac = false) →
    ∃ k, (sharedLoop fresh now folder_name ue ac lst fid cnt).1.1 = fresh k ∧
      DriveOp.createFolder (folder_name ++ " " ++ pyDropTail now 7) (fresh k) ∈
        (sharedLoop fresh now folder_name ue ac lst fid cnt).2 ∧
      DriveOp.createPerm (fresh k) ue ac ∈
        (sharedLoop fresh now folder_name ue ac lst fid cnt).2 := by
  induction lst generalizing fid cnt with
  | nil =>
    rintro ⟨u, hu, -⟩
    exact absurd hu (List.not_mem_nil u)
  | cons u rest ih =>
    rintro ⟨v, hv, hve, hvr⟩
    by_cases h1 : pyEqOpt u.emailAddress ue = true
    · by_cases h2 : pyEqOpt u.role ac = true
      · rw [sharedLoop_cons_skip h1 h2]
        apply ih fid cnt
        rcases List.mem_cons.1 hv with rfl | hv'
        · rw [h2] at hvr
          exact absurd hvr (by simp)
        · exact ⟨v, hv', hve, hvr⟩
      · have h2' : pyEqOpt u.role ac = false := by rwa [Bool.not_eq_true] at h2
        rw [sharedLoop_cons_fork h1 h2']
        rcases sharedLoop_fid_cases rest (fresh cnt) (cnt + 1) with hfid | ⟨k, hk, hcf, hcp⟩
        · exact ⟨cnt, by simpa using hfid, by simp, by simp⟩
        · exact ⟨k, by simpa using hk, by simp [hcf], by simp [hcp]⟩
    · have h1' : pyEqOpt u.emailAddress ue = false := by
        rwa [Bool.not_eq_true] at h1
      rw [sharedLoop_cons_other h1']
      have hvrest : v ∈ rest := by
        rcases List.mem_cons.1 hv with rfl | hv'
        · rw [h1'] at hve
          exact absurd hve (by simp)
        · exact hv'
      obtain ⟨k, hk, hcf, hcp⟩ := ih fid cnt ⟨v, hvrest, hve, hvr⟩
      exact ⟨k, by simpa using hk, by simp [hcf], by simp [hcp]⟩

/-- Remote writes never remove or rewrite a stored permission record: every
record present before the call is still present after applying any sequence
of the script's operations (they are all creations). -/
theorem mem_applyOps_of_mem (ops : List DriveOp) (st : String → List PermRec)
    (i : String) (pr : PermRec) (h : pr ∈ st i) : pr ∈ applyOps ops st i := by
  induction ops generalizing st with
  | nil => exact h
  | cons op rest ih =>
    apply ih
    cases op with
    | createPerm fileId e r =>
      simp only [applyOp]
      by_cases hi : i = fileId
      · rw [if_pos hi]
        exact List.mem_append_left _ h
      · rw [if_neg hi]
        exact h
    | createFolder a b => exact h
    | createFile a b c => exact h

/-- Trimming the last 7 characters of `"{sec}.{micro}"` (a 6-digit
microsecond field plus the dot, as in `str(datetime.now())`) yields the
second-precision prefix. -/
theorem pyDropTail_timestamp (sec micro : String) (h : micro.length = 6) :
    pyDropTail (sec ++ "." ++ micro) 7 = sec := by
  unfold pyDropTail
  have hd : (sec ++ "." ++ micro).toList = sec.toList ++ ('.' :: micro.toList) := by
    show (sec ++ "." ++ micro).data = sec.data ++ ('.' :: micro.data)
    rw [String.data_append, String.data_append, List.append_assoc]
    rfl
  rw [hd]
  have hm : micro.toList.length = 6 := h
  have hlen : (sec.toList ++ ('.' :: micro.toList)).length - 7 = sec.toList.length := by
    simp [List.length_append, hm]
    omega
  rw [hlen, List.take_left]
  cases sec with
  | mk d => rfl

/-- A nonempty list is not `isEmpty`. -/
theorem isEmpty_false_of_ne_nil {α : Type} {l : List α} (h : l ≠ []) :
    l.isEmpty = false := by
  cases l with
  | nil => exact absurd rfl h
  | cons x xs => rfl

/-- C5: an entry exactly matching the desired share is a pure no-op and the
loop does not stop there: the run over any listing containing it, in any
position, equals the run over the listing with that entry removed — same
final folder id, same counter, and the identical operations for every later
entry. -/
theorem sharedLoop_skips_exact_match
    (fresh : Nat → String) (now folder_name : String) (ue ac : Option String)
    (u : Perm) (pre post : List Perm) (fid : String) (cnt : Nat)
    (h1 : pyEqOpt u.emailAddress ue = true) (h2 : pyEqOpt u.role ac = true) :
    sharedLoop fresh now folder_name ue ac (pre ++ u :: post) fid cnt =
      sharedLoop fresh now folder_name ue ac (pre ++ post) fid cnt := by
  rw [sharedLoop_append pre (u :: post) fid cnt,
    sharedLoop_append pre post fid cnt, sharedLoop_cons_skip h1 h2]

/-- Witness for C5: the matching entry sits between two other entries and
its removal leaves the run unchanged. -/
theorem sharedLoop_skips_exact_match_witness :
    (pyEqOpt permAReader.emailAddress (some "a@x.com") = true ∧
      pyEqOpt permAReader.role (some "reader") = true) ∧
    sharedLoop freshEx "t" "X" (some "a@x.com") (some "reader")
        ([permBReader] ++ permAReader :: [permOwner]) "fid0" 0 =
      sharedLoop freshEx "t" "X" (some "a@x.com") (some "reader")
        ([permBReader] ++ [permOwner]) "fid0" 0 :=
  ⟨⟨by decide, by decide⟩,
    sharedLoop_skips_exact_match freshEx "t" "X" (some "a@x.com")
      (some "reader") permAReader [permBReader] [permOwner] "fid0" 0
      (by decide) (by decide)⟩

/-- C6: when every non-owner entry of the found folder has an email
different from the desired share's email, the reconciliation keeps the
existing folder id and issues only `permissions().create` calls for the
desired `(email, role)` on the existing folder (one per entry); no existing
permission is removed or rewritten — every pre-existing record survives the
whole call. -/
theorem upload_adds_permission_different_emails
    (fresh : Nat → String) (now : String) (d : Drive)
    (folder_name file_name e a : String) (f : RemoteFile)
    (hfind : findFolder d folder_name = some f)
    (hne : sharedUsers d f.id ≠ [])
    (hall : ∀ u ∈ sharedUsers d f.id, u.emailAddress ≠ e) :
    resolveFolder fresh now d folder_name (some e) (some a) =
      (f.id, (sharedUsers d f.id).map
        (fun _ => DriveOp.createPerm f.id (some e) (some a))) ∧
    DriveOp.createPerm f.id (some e) (some a) ∈
      (resolveFolder fresh now d folder_name (some e) (some a)).2 ∧
    ∀ p ∈ d.perms f.id, p.toRec ∈
      applyOps (upload fresh now d folder_name file_name (some e) (some a))
        (basePerms d) f.id := by
  have hall' : ∀ u ∈ sharedUsers d f.id, pyEqOpt u.emailAddress (some e) = false := by
    intro u hu
    have : (u.emailAddress == e) = false := beq_eq_false_iff_ne.2 (hall u hu)
    simpa [pyEqOpt] using this
  have hisEmpty : (sharedUsers d f.id).isEmpty = false := isEmpty_false_of_ne_nil hne
  have hloop := @sharedLoop_all_other fresh now folder_name (some e) (some a)
    (sharedUsers d f.id) f.id 0 hall'
  have hres : resolveFolder fresh now d folder_name (some e) (some a) =
      (f.id, (sharedUsers d f.id).map
        (fun _ => DriveOp.createPerm f.id (some e) (some a))) := by
    simp only [resolveFolder, hfind, hisEmpty, Bool.false_eq_true, if_false]
    rw [hloop]
  refine ⟨hres, ?_, ?_⟩
  · obtain ⟨x, xs, hq⟩ : ∃ x xs, sharedUsers d f.id = x :: xs := by
      cases hq : sharedUsers d f.id with
      | nil => exact absurd hq hne
      | cons x xs => exact ⟨x, xs, rfl⟩
    rw [hres, hq]
    simp
  · intro p hp
    exact mem_applyOps_of_mem _ _ _ _ (List.mem_map_of_mem Perm.toRec hp)

/-- Witness for C6: folder "X" is shared with b@x.com as reader and the
request is a share for a@x.com. -/
theorem upload_adds_permission_different_emails_witness :
    (findFolder driveSharedB "X" = some folderX ∧
      sharedUsers driveSharedB folderX.id ≠ [] ∧
      ∀ u ∈ sharedUsers driveSharedB folderX.id, u.emailAddress ≠ "a@x.com") ∧
    (resolveFolder freshEx "t" driveSharedB "X" (some "a@x.com") (some "reader") =
      (folderX.id, (sharedUsers driveSharedB folderX.id).map
        (fun _ => DriveOp.createPerm folderX.id (some "a@x.com") (some "reader"))) ∧
    DriveOp.createPerm folderX.id (some "a@x.com") (some "reader") ∈
      (resolveFolder freshEx "t" driveSharedB "X" (some "a@x.com") (some "reader")).2 ∧
    ∀ p ∈ driveSharedB.perms folderX.id, p.toRec ∈
      applyOps (upload freshEx "t" driveSharedB "X" "song.wav"
        (some "a@x.com") (some "reader")) (basePerms driveSharedB) folderX.id) :=
  ⟨⟨by decide, by decide, by decide⟩,
    upload_adds_permission_different_emails freshEx "t" driveSharedB "X"
      "song.wav" "a@x.com" "reader" folderX (by decide) (by decide) (by decide)⟩

/-- C9 counterexample: with `access = None` but `user_email` given (the
claim's "desired share is absent" hypothesis, since one of the two is None),
an existing entry with that email does NOT fall into the different-email
branch: `role != access` holds (`"reader" != None`), so the fork branch
runs — a new folder is created and the permission body carries the email,
not None. -/
theorem upload_no_share_fork_counterexample :
    resolveFolder freshEx "2026-01-01 00:00:00.000000" driveShared "X"
        (some "a@x.com") none =
      ("new0",
        [DriveOp.createFolder "X 2026-01-01 00:00:00" "new0",
         DriveOp.createPerm "new0" (some "a@x.com") none]) ∧
    (resolveFolder freshEx "2026-01-01 00:00:00.000000" driveShared "X"
        (some "a@x.com") none).2.countP isCreateFolderOp = 1 :=
  ⟨by decide, by decide⟩

/-- C9 (amended): when BOTH `user_email` and `access` are None and the found
folder has a non-empty non-owner permission list, every entry falls into the
different-email branch (a string never equals None), so the call issues one
`permissions().create` per existing entry, each with body `emailAddress
None, role None`, on the existing folder, and keeps the existing folder
id. -/
theorem upload_no_share_permission_bodies
    (fresh : Nat → String) (now : String) (d : Drive) (folder_name : String)
    (f : RemoteFile) (hfind : findFolder d folder_name = some f)
    (hne : sharedUsers d f.id ≠ []) :
    resolveFolder fresh now d folder_name none none =
      (f.id, (sharedUsers d f.id).map
        (fun _ => DriveOp.createPerm f.id none none)) ∧
    (resolveFolder fresh now d folder_name none none).2.length =
      (sharedUsers d f.id).length := by
  have hall' : ∀ u ∈ sharedUsers d f.id, pyEqOpt u.emailAddress none = false :=
    fun u _ => rfl
  have hisEmpty : (sharedUsers d f.id).isEmpty = false := isEmpty_false_of_ne_nil hne
  have hloop := @sharedLoop_all_other fresh now folder_name none none
    (sharedUsers d f.id) f.id 0 hall'
  have hres : resolveFolder fresh now d folder_name none none =
      (f.id, (sharedUsers d f.id).map
        (fun _ => DriveOp.createPerm f.id none none)) := by
    simp only [resolveFolder, hfind, hisEmpty, Bool.false_eq_true, if_false]
    rw [hloop]
  refine ⟨hres, ?_⟩
  rw [hres]
  simp

/-- Witness for the amended C9: folder "X" shared with one reader, upload
called with no share at all. -/
theorem upload_no_share_permission_bodies_witness :
    (findFolder driveShared "X" = some folderX ∧
      sharedUsers driveShared folderX.id ≠ []) ∧
    (resolveFolder freshEx "t" driveShared "X" none none =
      (folderX.id, (sharedUsers driveShared folderX.id).map
        (fun _ => DriveOp.createPerm folderX.id none none)) ∧
    (resolveFolder freshEx "t" driveShared "X" none none).2.length =
      (sharedUsers driveShared folderX.id).length) :=
  ⟨⟨by decide, by decide⟩,
    upload_no_share_permission_bodies freshEx "t" driveShared "X" folderX
      (by decide) (by decide)⟩

/-- C2: when the found folder's non-owner permissions contain an entry with
the desired email but a different role, the call creates a fork folder named
`"{folder_name} {sec}"` (the timestamp `"{sec}.{micro}"` with its 6-digit
microsecond field trimmed), grants the desired `(email, role)` on that fork
folder, resolves to the fork folder's id, uploads the file with exactly that
id as parent, and every pre-existing permission record of the original
folder survives the whole call (no removal, no in-place update). -/
theorem upload_forks_on_role_mismatch
    (fresh : Nat → String) (sec micro : String) (d : Drive)
    (folder_name file_name e a : String) (f : RemoteFile)
    (hmicro : micro.length = 6)
    (hfind : findFolder d folder_name = some f)
    (hwit : ∃ u ∈ sharedUsers d f.id, u.emailAddress = e ∧ u.role ≠ a) :
    ∃ k,
      (resolveFolder fresh (sec ++ "." ++ micro) d folder_name
        (some e) (some a)).1 = fresh k ∧
      DriveOp.createFolder (folder_name ++ " " ++ sec) (fresh k) ∈
        (resolveFolder fresh (sec ++ "." ++ micro) d folder_name
          (some e) (some a)).2 ∧
      DriveOp.createPerm (fresh k) (some e) (some a) ∈
        (resolveFolder fresh (sec ++ "." ++ micro) d folder_name
          (some e) (some a)).2 ∧
      (∀ p ∈ d.perms f.id, p.toRec ∈
        applyOps (upload fresh (sec ++ "." ++ micro) d folder_name file_name
          (some e) (some a)) (basePerms d) f.id) ∧
      DriveOp.createFile file_name [fresh k] (file_mime file_name) ∈
        upload fresh (sec ++ "." ++ micro) d folder_name file_name
          (some e) (some a) := by
  obtain ⟨u, hu, hue, hur⟩ := hwit
  have hwit' : ∃ v ∈ sharedUsers d f.id,
      pyEqOpt v.emailAddress (some e) = true ∧ pyEqOpt v.role (some a) = false := by
    refine ⟨u, hu, ?_, ?_⟩
    · simp [pyEqOpt, hue]
    · have : (u.role == a) = false := beq_eq_false_iff_ne.2 hur
      simpa [pyEqOpt] using this
  have hne : sharedUsers d f.id ≠ [] := List.ne_nil_of_mem hu
  have hisEmpty : (sharedUsers d f.id).isEmpty = false := isEmpty_false_of_ne_nil hne
  have hts : pyDropTail (sec ++ "." ++ micro) 7 = sec :=
    pyDropTail_timestamp sec micro hmicro
  obtain ⟨k, hk, hcf, hcp⟩ := @sharedLoop_fork_reached fresh (sec ++ "." ++ micro)
    folder_name (some e) (some a) (sharedUsers d f.id) f.id 0 hwit'
  rw [hts] at hcf
  have hres : resolveFolder fresh (sec ++ "." ++ micro) d folder_name
      (some e) (some a) =
      ((sharedLoop fresh (sec ++ "." ++ micro) folder_name (some e) (some a)
          (sharedUsers d f.id) f.id 0).1.1,
        (sharedLoop fresh (sec ++ "." ++ micro) folder_name (some e) (some a)
          (sharedUsers d f.id) f.id 0).2) := by
    simp only [resolveFolder, hfind, hisEmpty, Bool.false_eq_true, if_false]
  have hfid : (resolveFolder fresh (sec ++ "." ++ micro) d folder_name
      (some e) (some a)).1 = fresh k := by
    rw [hres]
    exact hk
  refine ⟨k, hfid, ?_, ?_, ?_, ?_⟩
  · rw [hres]
    exact hcf
  · rw [hres]
    exact hcp
  · intro p hp
    exact mem_applyOps_of_mem _ _ _ _ (List.mem_map_of_mem Perm.toRec hp)
  · simp only [upload]
    rw [hfid]
    exact List.mem_append_right _ (List.mem_singleton_self _)

/-- Witness for C2: folder "X" is shared with (a@x.com, reader) and the
request asks for (a@x.com, writer). -/
theorem upload_forks_on_role_mismatch_witness :
    (("000000" : String).length = 6 ∧
      findFolder driveShared "X" = some folderX ∧
      ∃ u ∈ sharedUsers driveShared folderX.id,
        u.emailAddress = "a@x.com" ∧ u.role ≠ "writer") ∧
    ∃ k,
      (resolveFolder freshEx ("2026-01-01 00:00:00" ++ "." ++ "000000")
        driveShared "X" (some "a@x.com") (some "writer")).1 = freshEx k ∧
      DriveOp.createFolder ("X" ++ " " ++ "2026-01-01 00:00:00") (freshEx k) ∈
        (resolveFolder freshEx ("2026-01-01 00:00:00" ++ "." ++ "000000")
          driveShared "X" (some "a@x.com") (some "writer")).2 ∧
      DriveOp.createPerm (freshEx k) (some "a@x.com") (some "writer") ∈
        (resolveFolder freshEx ("2026-01-01 00:00:00" ++ "." ++ "000000")
          driveShared "X" (some "a@x.com") (some "writer")).2 ∧
      (∀ p ∈ driveShared.perms folderX.id, p.toRec ∈
        applyOps (upload freshEx ("2026-01-01 00:00:00" ++ "." ++ "000000")
          driveShared "X" "song.wav" (some "a@x.com") (some "writer"))
          (basePerms driveShared) folderX.id) ∧
      DriveOp.createFile "song.wav" [freshEx k] (file_mime "song.wav") ∈
        upload freshEx ("2026-01-01 00:00:00" ++ "." ++ "000000")
          driveShared "X" "song.wav" (some "a@x.com") (some "writer") :=
  ⟨⟨by decide, by decide, by decide⟩,
    upload_forks_on_role_mismatch freshEx "2026-01-01 00:00:00" "000000"
      driveShared "X" "song.wav" "a@x.com" "writer" folderX
      (by decide) (by decide) (by decide)⟩
